import Mathlib

/-!
# Verification of the tourism-backend booking and request lifecycle

A shallow embedding of the seat-inventory booking engine
(`src/routes/booking.routes.js`, `src/routes/package.routes.js`) and of the
travel-request lifecycle engine (`src/routes/admin.routes.js`,
`src/routes/tour-guide.routes.js`, `src/routes/agent.routes.js`).

Database tables become Lean lists of records, SQL `SELECT ... WHERE id = ?`
becomes `List.find?`, `UPDATE ... WHERE` becomes a `List.map` that rewrites
the matching rows, and each route handler becomes a function from a state to
a state paired with an HTTP-style response.  Statuses are kept as strings,
exactly as the JavaScript code compares them, so that case-sensitivity
behaviour is preserved.
-/

namespace Tourism

/-- ASCII lower-casing of one character; models what JavaScript
`String.prototype.toLowerCase` does on the ASCII inputs used here. -/
def lowerChar (c : Char) : Char :=
  if 'A' ≤ c ∧ c ≤ 'Z' then Char.ofNat (c.toNat + 32) else c

/-- ASCII lower-casing of a string (JS `status.toLowerCase()`). -/
def lowerStr (s : String) : String :=
  ⟨s.data.map lowerChar⟩

/-- One character of JS whitespace (the forms relevant to `String.trim`). -/
def isSpaceChar (c : Char) : Bool :=
  c = ' ' || c = '\t' || c = '\n' || c = '\r'

/-- JS `String.prototype.trim`: strip leading and trailing whitespace. -/
def trimStr (s : String) : String :=
  ⟨((s.data.dropWhile isSpaceChar).reverse.dropWhile isSpaceChar).reverse⟩

/-- JS `Array.prototype.join` with separator `", "`. -/
def joinComma : List String → String
  | [] => ""
  | [s] => s
  | s :: rest => s ++ ", " ++ joinComma rest

/-- An HTTP-style response: success with a status code, or an error with a
status code and the exact message string the handler sends. -/
inductive Resp where
  | ok (code : Nat)
  | err (code : Nat) (msg : String)
deriving Repr, DecidableEq

/-! ## Package inventory and booking engine

Data model of the `tour_packages` and `tour_bookings` tables, restricted to
the columns the booking logic reads or writes. -/

/-- A row of `tour_packages` (the columns used by the booking engine). -/
structure Package where
  pid : Nat
  price : Int
  seats_total : Int
  seats_available : Int
  active : Bool
deriving Repr, DecidableEq

/-- A row of `tour_bookings` (the columns used by the booking engine). -/
structure Booking where
  bid : Nat
  package_id : Nat
  user_id : Nat
  num_travelers : Int
  total_price : Int
  status : String
deriving Repr, DecidableEq

/-- The datastore visible to the booking engine.  `nextBookingId` models the
`SERIAL` primary-key sequence of `tour_bookings`. -/
structure BookState where
  packages : List Package
  bookings : List Booking
  nextBookingId : Nat
deriving Repr, DecidableEq

/-- `SELECT ... FROM tour_packages WHERE id = $1`. -/
def findPackage (ps : List Package) (i : Nat) : Option Package :=
  ps.find? (fun p => decide (p.pid = i))

/-- `SELECT ... FROM tour_bookings WHERE id = $1`. -/
def findBooking (bs : List Booking) (i : Nat) : Option Booking :=
  bs.find? (fun b => decide (b.bid = i))

/-- `POST /bookings` (`src/routes/booking.routes.js` lines 21-109), as the
route actually executes: the booking `INSERT` and the seat-decrement
`UPDATE` are two separate auto-committed statements (the file issues no
`BEGIN`/`COMMIT`).  `seatUpdateFails` models the second statement raising
after the first has already committed; the handler then answers 500 from its
`catch` block, but the inserted booking row stays committed. -/
def createBookingRun (st : BookState) (userId packageId : Nat)
    (numTravelers : Int) (seatUpdateFails : Bool) : BookState × Resp :=
  if numTravelers < 1 then
    (st, .err 400 "Number of travelers must be at least 1")
  else
    match findPackage st.packages packageId with
    | none => (st, .err 404 "Package not found")
    | some pkg =>
      if pkg.active = false then
        (st, .err 400 "This package is no longer available")
      else if pkg.seats_available < numTravelers then
        (st, .err 400 ("Only " ++ toString pkg.seats_available ++ " seats available"))
      else
        let b : Booking :=
          { bid := st.nextBookingId, package_id := packageId, user_id := userId,
            num_travelers := numTravelers,
            total_price := pkg.price * numTravelers, status := "pending" }
        let stIns : BookState :=
          { st with bookings := b :: st.bookings,
                    nextBookingId := st.nextBookingId + 1 }
        if seatUpdateFails then
          (stIns, .err 500 "Failed to create booking")
        else
          ({ stIns with
              packages := st.packages.map (fun p =>
                if p.pid = packageId
                then { p with seats_available := p.seats_available - numTravelers }
                else p) },
           .ok 201)

/-- `POST /bookings` on the fault-free path. -/
def createBooking (st : BookState) (userId packageId : Nat)
    (numTravelers : Int) : BookState × Resp :=
  createBookingRun st userId packageId numTravelers false

/-- `PATCH /bookings/:id/cancel` (`src/routes/booking.routes.js` lines
193-250): owner-only, only `pending` bookings; sets the booking to
`cancelled` and returns its seats to the package. -/
def cancelBooking (st : BookState) (userId bookingId : Nat) : BookState × Resp :=
  match findBooking st.bookings bookingId with
  | none => (st, .err 404 "Booking not found")
  | some b =>
    if b.user_id ≠ userId then (st, .err 403 "Forbidden")
    else if b.status ≠ "pending" then
      (st, .err 400 ("Cannot cancel " ++ b.status ++ " booking"))
    else
      ({ st with
          bookings := st.bookings.map (fun x =>
            if x.bid = bookingId then { x with status := "cancelled" } else x),
          packages := st.packages.map (fun p =>
            if p.pid = b.package_id
            then { p with seats_available := p.seats_available + b.num_travelers }
            else p) },
       .ok 200)

/-- `PATCH /user/bookings/:id/cancel` (`src/routes/package.routes.js` lines
572-617, the near-duplicate flow): lookup folds ownership into the `WHERE`,
already-cancelled and completed bookings are rejected, anything else
(pending or confirmed) is cancelled with the seats returned. -/
def cancelBookingUser (st : BookState) (userId bookingId : Nat) : BookState × Resp :=
  match st.bookings.find? (fun b => decide (b.bid = bookingId ∧ b.user_id = userId)) with
  | none => (st, .err 404 "Booking not found")
  | some b =>
    if b.status = "cancelled" then (st, .err 400 "Booking already cancelled")
    else if b.status = "completed" then (st, .err 400 "Cannot cancel completed booking")
    else
      ({ st with
          bookings := st.bookings.map (fun x =>
            if x.bid = bookingId then { x with status := "cancelled" } else x),
          packages := st.packages.map (fun p =>
            if p.pid = b.package_id
            then { p with seats_available := p.seats_available + b.num_travelers }
            else p) },
       .ok 200)

/-- The closed list of booking statuses from
`src/routes/booking.routes.js` line 300. -/
def bookingStatuses : List String := ["pending", "confirmed", "cancelled", "completed"]

/-- `PATCH /bookings/:id/status` (`src/routes/booking.routes.js` lines
295-329): admin sets a booking's status after an exact-literal membership
check; no seat column is touched. -/
def updateBookingStatus (st : BookState) (bookingId : Nat) (status : String) :
    BookState × Resp :=
  if (bookingStatuses.contains status) = false then
    (st, .err 400 "Invalid status")
  else if (findBooking st.bookings bookingId).isNone then
    (st, .err 404 "Booking not found")
  else
    ({ st with
        bookings := st.bookings.map (fun x =>
          if x.bid = bookingId then { x with status := status } else x) },
     .ok 200)

/-- `PUT /packages/:id` restricted to the two seat columns
(`src/routes/package.routes.js` lines 255-264): a supplied field overwrites
the stored value unconditionally — the handler performs no bounds check
relating `seats_available` to `seats_total` or to zero. -/
def updatePackageSeats (st : BookState) (packageId : Nat)
    (seatsAvail seatsTotal : Option Int) : BookState × Resp :=
  match findPackage st.packages packageId with
  | none => (st, .err 404 "Package not found")
  | some _ =>
    ({ st with
        packages := st.packages.map (fun p =>
          if p.pid = packageId
          then { p with seats_available := seatsAvail.getD p.seats_available,
                        seats_total := seatsTotal.getD p.seats_total }
          else p) },
     .ok 200)

/-- The booking operations quantified over by the seat-inventory claims. -/
inductive BookOp where
  | create (userId packageId : Nat) (numTravelers : Int)
  | cancel (userId bookingId : Nat)
  | cancelU (userId bookingId : Nat)
  | setStatus (bookingId : Nat) (status : String)
deriving Repr, DecidableEq

/-- State reached after one booking operation (response discarded). -/
def applyBookOp (st : BookState) : BookOp → BookState
  | .create u p n => (createBooking st u p n).1
  | .cancel u b => (cancelBooking st u b).1
  | .cancelU u b => (cancelBookingUser st u b).1
  | .setStatus b s => (updateBookingStatus st b s).1

/-- State reached after a sequence of booking operations. -/
def applyBookOps (st : BookState) (ops : List BookOp) : BookState :=
  ops.foldl applyBookOp st

/-- A booking holds seats while `pending` or `confirmed` (spec §3). -/
def isActiveBooking (b : Booking) : Bool :=
  b.status = "pending" || b.status = "confirmed"

/-- Seats contributed by one booking to the package `pid`. -/
def contrib (pid : Nat) (b : Booking) : Int :=
  if b.package_id = pid ∧ isActiveBooking b then b.num_travelers else 0

/-- `Σ num_travelers` over the bookings of package `pid` whose status is
`pending` or `confirmed`. -/
def activeSum (bs : List Booking) (pid : Nat) : Int :=
  bs.foldr (fun b acc => contrib pid b + acc) 0

/-- The seat-inventory bookkeeping invariant of spec §3/§8. -/
def seatInv (st : BookState) : Prop :=
  ∀ p ∈ st.packages, p.seats_available = p.seats_total - activeSum st.bookings p.pid

instance : DecidablePred seatInv := fun st =>
  inferInstanceAs (Decidable (∀ p ∈ st.packages, _))

/-- The bounds invariant of spec §8: `0 ≤ seats_available ≤ seats_total`. -/
def seatBounds (st : BookState) : Prop :=
  ∀ p ∈ st.packages, 0 ≤ p.seats_available ∧ p.seats_available ≤ p.seats_total

instance : DecidablePred seatBounds := fun st =>
  inferInstanceAs (Decidable (∀ p ∈ st.packages, _))

/-- Well-formedness of the booking store: primary keys are unique, the
`SERIAL` counter is ahead of every row, and every booking was created with
at least one traveler (the route rejects `num_travelers < 1`). -/
def WFBook (st : BookState) : Prop :=
  (st.bookings.map Booking.bid).Nodup ∧
  (st.packages.map Package.pid).Nodup ∧
  (∀ b ∈ st.bookings, b.bid < st.nextBookingId) ∧
  (∀ b ∈ st.bookings, 1 ≤ b.num_travelers) ∧
  (∀ b ∈ st.bookings, b.status ∈ bookingStatuses)

instance : DecidablePred WFBook := fun st =>
  inferInstanceAs (Decidable (_ ∧ _ ∧ _ ∧ _ ∧ _))

/-! ## Request lifecycle engine

Data model of the `users` and `requests` tables, restricted to the columns
the lifecycle logic reads or writes. -/

/-- A row of `users` (the columns used for guide lookup). -/
structure UserRec where
  uid : Nat
  role : String
  active : Bool
deriving Repr, DecidableEq

/-- A row of `requests`.  `tour_guide_id` is the nullable guide column
(named `agent_id` in the older schema era; one canonical column here). -/
structure Request where
  rid : Nat
  user_id : Nat
  status : String
  tour_guide_id : Option Nat
deriving Repr, DecidableEq

/-- The datastore visible to the request lifecycle engine. -/
structure ReqState where
  users : List UserRec
  requests : List Request
  nextRequestId : Nat
deriving Repr, DecidableEq

/-- `VALID_TRANSITIONS` from `src/routes/tour-guide.routes.js` lines 7-11:
the guide-driven FSM rows; a status absent from the table has no allowed
successors (the JS `|| []` default). -/
def VALID_TRANSITIONS (s : String) : List String :=
  if s = "assigned" then ["in_progress"]
  else if s = "in_progress" then ["completed"]
  else []

/-- `ALLOWED_STATUSES` from `src/routes/tour-guide.routes.js` line 14. -/
def ALLOWED_STATUSES : List String := ["assigned", "in_progress", "completed"]

/-- `SELECT id, name, active FROM users WHERE id = $1 AND role = 'tour_guide'`. -/
def findGuide (us : List UserRec) (gid : Nat) : Option UserRec :=
  us.find? (fun u => decide (u.uid = gid ∧ u.role = "tour_guide"))

/-- `SELECT COUNT(*) FROM requests WHERE tour_guide_id = $1 AND status IN
('assigned', 'in_progress')` — the workload query of the assign route. -/
def activeCount (rs : List Request) (gid : Nat) : Nat :=
  (rs.filter (fun r =>
    decide (r.tour_guide_id = some gid ∧
      (r.status = "assigned" ∨ r.status = "in_progress")))).length

/-- `POST /user/requests` (`src/routes/agent.routes.js` lines 332-381):
validates the trimmed destination (nonempty, ≤ 200 chars) and optional
message (≤ 1000 chars), then inserts a `pending` request with no guide. -/
def createRequest (st : ReqState) (userId : Nat) (destination message : String) :
    ReqState × Resp :=
  if trimStr destination = "" then (st, .err 400 "Destination cannot be empty")
  else if 200 < (trimStr destination).length then
    (st, .err 400 "Destination too long (max 200 characters)")
  else if message ≠ "" ∧ 1000 < (trimStr message).length then
    (st, .err 400 "Message too long (max 1000 characters)")
  else
    ({ st with
        requests :=
          { rid := st.nextRequestId, user_id := userId,
            status := "pending", tour_guide_id := none } :: st.requests,
        nextRequestId := st.nextRequestId + 1 },
     .ok 201)

/-- `POST /admin/requests/:id/assign` (`src/routes/admin.routes.js` lines
388-473): guide must exist with role `tour_guide` and be active, the guide's
active workload must be under 10, and the `UPDATE` itself filters on
`status = 'pending'`; when it matches no row the handler re-reads the
request and reports its actual status. -/
def assignRequest (st : ReqState) (requestId gid : Nat) : ReqState × Resp :=
  match findGuide st.users gid with
  | none => (st, .err 400 "Tour Guide not found")
  | some g =>
    if g.active = false then (st, .err 400 "Tour Guide is not active")
    else if 10 ≤ activeCount st.requests gid then
      (st, .err 400 "Tour Guide has too many active requests. Please choose another tour guide.")
    else if (st.requests.filter (fun r =>
        decide (r.rid = requestId ∧ r.status = "pending"))).isEmpty then
      match st.requests.find? (fun r => decide (r.rid = requestId)) with
      | none => (st, .err 404 "Request not found")
      | some r =>
        (st, .err 400 ("Cannot assign request with status \x27" ++ r.status ++ "\x27"))
    else
      ({ st with
          requests := st.requests.map (fun r =>
            if r.rid = requestId ∧ r.status = "pending"
            then { r with status := "assigned", tour_guide_id := some gid }
            else r) },
       .ok 200)

/-- `POST /admin/requests/:id/reassign` (`src/routes/admin.routes.js` lines
479-554): new guide must exist and be active, the request's status must be
`assigned` or `in_progress`, and the `UPDATE` sets only `tour_guide_id`. -/
def reassignRequest (st : ReqState) (requestId gid : Nat) : ReqState × Resp :=
  match findGuide st.users gid with
  | none => (st, .err 400 "Tour Guide not found")
  | some g =>
    if g.active = false then (st, .err 400 "Tour Guide is not active")
    else
      match st.requests.find? (fun r => decide (r.rid = requestId)) with
      | none => (st, .err 404 "Request not found")
      | some r =>
        if (r.status = "assigned" ∨ r.status = "in_progress") then
          ({ st with
              requests := st.requests.map (fun x =>
                if x.rid = requestId
                then { x with tour_guide_id := some gid }
                else x) },
           .ok 200)
        else
          (st, .err 400 ("Cannot reassign " ++ r.status ++ " request"))

/-- The transition-error message template of
`src/routes/tour-guide.routes.js` lines 206-210, with the JS
`allowedNext.join(', ') || 'none'` rendering of an empty allowed-next set. -/
def transitionErrMsg (cur tgt : String) : String :=
  "Invalid transition from \x27" ++ cur ++ "\x27 to \x27" ++ tgt ++
    "\x27. Allowed: " ++
    (if joinComma (VALID_TRANSITIONS cur) = "" then "none"
     else joinComma (VALID_TRANSITIONS cur))

/-- `POST /tour-guide/requests/:id/status` (`src/routes/tour-guide.routes.js`
lines 165-242): the raw status is lower-cased, checked against
`ALLOWED_STATUSES`, the note is trimmed and bounded, the request must be
assigned to the calling guide, and the target must be in the FSM's
allowed-next set of the current status. -/
def advanceStatus (st : ReqState) (gid requestId : Nat)
    (rawStatus note : String) : ReqState × Resp :=
  if rawStatus = "" then (st, .err 400 "Status is required")
  else if (ALLOWED_STATUSES.contains (lowerStr rawStatus)) = false then
    (st, .err 400 ("Invalid status. Allowed: " ++ joinComma ALLOWED_STATUSES))
  else if note ≠ "" ∧ 500 < (trimStr note).length then
    (st, .err 400 "Note too long (max 500 characters)")
  else
    match st.requests.find? (fun r =>
        decide (r.rid = requestId ∧ r.tour_guide_id = some gid)) with
    | none => (st, .err 404 "Request not found or not assigned to you")
    | some r =>
      if ((VALID_TRANSITIONS r.status).contains (lowerStr rawStatus)) = false then
        (st, .err 400 (transitionErrMsg r.status (lowerStr rawStatus)))
      else
        ({ st with
            requests := st.requests.map (fun x =>
              if x.rid = requestId ∧ x.tour_guide_id = some gid
              then { x with status := lowerStr rawStatus }
              else x) },
         .ok 200)

/-- `PATCH /user/requests/:id/cancel` (`src/routes/agent.routes.js` lines
521-573): owner-only, only from `pending` or `assigned`; the `UPDATE` sets
only `status = 'cancelled'` — the guide column is left as-is. -/
def cancelRequest (st : ReqState) (userId requestId : Nat) : ReqState × Resp :=
  match st.requests.find? (fun r =>
      decide (r.rid = requestId ∧ r.user_id = userId)) with
  | none => (st, .err 404 "Request not found")
  | some r =>
    if (r.status = "pending" ∨ r.status = "assigned") then
      ({ st with
          requests := st.requests.map (fun x =>
            if x.rid = requestId then { x with status := "cancelled" } else x) },
       .ok 200)
    else
      (st, .err 400 ("Cannot cancel " ++ r.status ++ " request"))

/-- The request operations quantified over by the lifecycle claims. -/
inductive ReqOp where
  | create (userId : Nat) (destination message : String)
  | assign (requestId gid : Nat)
  | reassign (requestId gid : Nat)
  | advance (gid requestId : Nat) (rawStatus note : String)
  | cancel (userId requestId : Nat)
deriving Repr, DecidableEq

/-- State reached after one request operation (response discarded). -/
def applyReqOp (st : ReqState) : ReqOp → ReqState
  | .create u d m => (createRequest st u d m).1
  | .assign r g => (assignRequest st r g).1
  | .reassign r g => (reassignRequest st r g).1
  | .advance g r s n => (advanceStatus st g r s n).1
  | .cancel u r => (cancelRequest st u r).1

/-- State reached after a sequence of request operations. -/
def applyReqOps (st : ReqState) (ops : List ReqOp) : ReqState :=
  ops.foldl applyReqOp st

/-- The guide-link property of spec §3 claimed per request. -/
def guideIffStatus (r : Request) : Prop :=
  r.tour_guide_id ≠ none ↔
    (r.status = "assigned" ∨ r.status = "in_progress" ∨ r.status = "completed")

instance : DecidablePred guideIffStatus := fun r =>
  inferInstanceAs (Decidable (Iff _ _))

/-- The guide-link invariant the code actually maintains: an
assigned/in-progress/completed request always has a guide, and a request
holding a guide is in one of those statuses or was cancelled (cancellation
does not clear the guide column). -/
def guideLinkInv (r : Request) : Prop :=
  ((r.status = "assigned" ∨ r.status = "in_progress" ∨ r.status = "completed") →
    r.tour_guide_id ≠ none) ∧
  (r.tour_guide_id ≠ none →
    (r.status = "assigned" ∨ r.status = "in_progress" ∨ r.status = "completed" ∨
     r.status = "cancelled"))

instance : DecidablePred guideLinkInv := fun r =>
  inferInstanceAs (Decidable (_ ∧ _))

/-- Well-formedness of the request store: unique primary keys, `SERIAL`
counter ahead of every row. -/
def WFReq (st : ReqState) : Prop :=
  (st.requests.map Request.rid).Nodup ∧
  (∀ r ∈ st.requests, r.rid < st.nextRequestId)

instance : DecidablePred WFReq := fun st =>
  inferInstanceAs (Decidable (_ ∧ _))

/-! ## Guide request listing (query layer) -/

/-- The pagination payload of `GET /tour-guide/requests`. -/
structure PageResp where
  rows : List Request
  total : Nat
  totalPages : Nat
deriving Repr, DecidableEq

/-- `Math.ceil (a / b)` on naturals. -/
def ceilDiv (a b : Nat) : Nat := (a + b - 1) / b

/-- `GET /tour-guide/requests` (`src/routes/tour-guide.routes.js` lines
33-91): `page` and `limit` are clamped, the *unfiltered* per-guide result
set is fetched first and its size reported as `total`/`totalPages`, while
the returned rows are additionally filtered by `status` when the filter is
one of `ALLOWED_STATUSES`. -/
def listGuideRequests (st : ReqState) (gid : Nat) (page limit : Nat)
    (statusFilter : Option String) : PageResp :=
  let pageC := max 1 page
  let limitC := min 50 (max 1 limit)
  let alls := st.requests.filter (fun (r : Request) => decide (r.tour_guide_id = some gid))
  let filtered :=
    match statusFilter with
    | some s =>
      if ALLOWED_STATUSES.contains s
      then alls.filter (fun (r : Request) => decide (r.status = s))
      else alls
    | none => alls
  { rows := (filtered.drop ((pageC - 1) * limitC)).take limitC,
    total := alls.length,
    totalPages := ceilDiv alls.length limitC }

/-- The operations named by the §8 seat invariant: booking creation and the
two cancellation flows, excluding the admin status override. -/
def createCancelOp : BookOp → Prop
  | .create _ _ _ => True
  | .cancel _ _ => True
  | .cancelU _ _ => True
  | .setStatus _ _ => False

instance : DecidablePred createCancelOp := fun op => by
  cases op <;> simp only [createCancelOp] <;> infer_instance

/-! ## Concrete fixtures for scenarios -/

/-- An active package with 5 of 5 seats remaining (the §8 scenario). -/
def pkg5 : Package :=
  { pid := 1, price := 100, seats_total := 5, seats_available := 5, active := true }

/-- Fresh booking store holding only `pkg5`. -/
def bookSt0 : BookState :=
  { packages := [pkg5], bookings := [], nextBookingId := 1 }

/-- A booking store whose one booking is already cancelled. -/
def bookStCancelled : BookState :=
  { packages := [pkg5],
    bookings := [{ bid := 1, package_id := 1, user_id := 3, num_travelers := 2,
                   total_price := 200, status := "cancelled" }],
    nextBookingId := 2 }

/-- An active tour guide. -/
def guide7 : UserRec := { uid := 7, role := "tour_guide", active := true }

/-- Fresh request store holding only the guide. -/
def reqSt0 : ReqState := { users := [guide7], requests := [], nextRequestId := 1 }

/-- A store with one request assigned to guide 7. -/
def reqStAssigned : ReqState :=
  { users := [guide7],
    requests := [{ rid := 1, user_id := 2, status := "assigned",
                   tour_guide_id := some 7 }],
    nextRequestId := 2 }

/-- A store with one cancelled request still holding its guide reference
(reachable: user cancel from `assigned` does not clear the guide). -/
def reqStCancelled : ReqState :=
  { users := [guide7],
    requests := [{ rid := 1, user_id := 2, status := "cancelled",
                   tour_guide_id := some 7 }],
    nextRequestId := 2 }

/-- A store where guide 7 holds one assigned and one completed request. -/
def reqStTwo : ReqState :=
  { users := [guide7],
    requests := [{ rid := 1, user_id := 2, status := "assigned",
                   tour_guide_id := some 7 },
                 { rid := 2, user_id := 3, status := "completed",
                   tour_guide_id := some 7 }],
    nextRequestId := 3 }

/-- A store where guide 7 already has ten active (assigned) requests and an
eleventh request is still pending. -/
def reqStTen : ReqState :=
  { users := [guide7],
    requests :=
      ({ rid := 11, user_id := 2, status := "pending",
         tour_guide_id := none } : Request) ::
      (List.range 10).map (fun k =>
        ({ rid := k + 1, user_id := 2, status := "assigned",
           tour_guide_id := some 7 } : Request)),
    nextRequestId := 12 }

/-! ## List helper lemmas -/

/-- An `UPDATE ... WHERE` whose condition matches no row leaves the table
unchanged. -/
lemma map_ite_id {α : Type} (l : List α) (c : α → Prop) [DecidablePred c]
    (g : α → α) (h : ∀ x ∈ l, ¬ c x) :
    (l.map fun x => if c x then g x else x) = l := by
  induction l with
  | nil => rfl
  | cons a t ih =>
    simp only [List.map_cons, if_neg (h a (List.mem_cons_self a t))]
    rw [ih fun x hx => h x (List.mem_cons_of_mem a hx)]

/-- Strengthening the `WHERE` clause of a lookup does not change which row
is found, provided the found row still satisfies it. -/
lemma find?_stronger {α : Type} (l : List α) (p q : α → Bool) (b : α)
    (h : l.find? p = some b) (hq : q b = true)
    (himp : ∀ x, q x = true → p x = true) :
    l.find? q = some b := by
  induction l with
  | nil => simp at h
  | cons a t ih =>
    by_cases hpa : p a = true
    · rw [List.find?_cons_of_pos _ hpa] at h
      obtain rfl : a = b := by simpa using h
      rw [List.find?_cons_of_pos _ hq]
    · have hqa : ¬ q a = true := fun hk => hpa (himp a hk)
      rw [List.find?_cons_of_neg _ hpa] at h
      rw [List.find?_cons_of_neg _ (by simpa using hqa)]
      exact ih h

/-- A row update that keeps the key column fixed keeps the key list fixed. -/
lemma map_key_update {α β : Type} (l : List α) (c : α → Prop) [DecidablePred c]
    (g : α → α) (key : α → β) (hg : ∀ x, key (g x) = key x) :
    ((l.map fun x => if c x then g x else x).map key) = l.map key := by
  induction l with
  | nil => rfl
  | cons a t ih => by_cases h : c a <;> simp [h, hg, ih]

/-- Unfolding `activeSum` over a freshly inserted booking row. -/
lemma activeSum_cons (b : Booking) (bs : List Booking) (pid : Nat) :
    activeSum (b :: bs) pid = contrib pid b + activeSum bs pid := rfl

/-- Effect of an `UPDATE tour_bookings ... WHERE id = ?` on the active-seat
sum, when primary keys are unique: only the targeted row's contribution
changes. -/
lemma activeSum_update (bs : List Booking) (i pid : Nat) (g : Booking → Booking)
    (b0 : Booking) (hnd : (bs.map Booking.bid).Nodup) (hmem : b0 ∈ bs)
    (hbid : b0.bid = i) :
    activeSum (bs.map fun x => if x.bid = i then g x else x) pid
      = activeSum bs pid - contrib pid b0 + contrib pid (g b0) := by
  induction bs with
  | nil => cases hmem
  | cons a t ih =>
    rw [List.map_cons, List.nodup_cons] at hnd
    rcases List.mem_cons.mp hmem with rfl | hmt
    · simp only [List.map_cons, if_pos hbid, activeSum_cons]
      rw [map_ite_id t (fun x => x.bid = i) g ?_]
      · ring
      · intro x hx hxi
        apply hnd.1
        have hm : x.bid ∈ t.map Booking.bid := List.mem_map_of_mem Booking.bid hx
        rwa [hxi, ← hbid] at hm
    · have hai : ¬ a.bid = i := by
        intro hai
        apply hnd.1
        have hm : b0.bid ∈ t.map Booking.bid := List.mem_map_of_mem Booking.bid hmt
        rwa [hbid, ← hai] at hm
      simp only [List.map_cons, if_neg hai, activeSum_cons,
        ih hnd.2 hmt]
      ring

/-- Every booking that was created through the route contributes a
nonnegative seat count, so the active-seat sum is nonnegative. -/
lemma activeSum_nonneg (bs : List Booking) (pid : Nat)
    (h : ∀ b ∈ bs, 1 ≤ b.num_travelers) : 0 ≤ activeSum bs pid := by
  induction bs with
  | nil => exact le_refl 0
  | cons a t ih =>
    rw [activeSum_cons]
    have ha : 0 ≤ contrib pid a := by
      unfold contrib
      split
      · exact le_of_lt (lt_of_lt_of_le Int.zero_lt_one (h a (List.mem_cons_self a t)))
      · exact le_refl 0
    have ht : 0 ≤ activeSum t pid := ih fun b hb => h b (List.mem_cons_of_mem a hb)
    omega

/-- Two rows agreeing on a `Nodup` key column are the same row. -/
lemma eq_of_key_nodup {α β : Type} {l : List α} {key : α → β}
    (hnd : (l.map key).Nodup) {a b : α} (ha : a ∈ l) (hb : b ∈ l)
    (hk : key a = key b) : a = b :=
  List.inj_on_of_nodup_map hnd ha hb hk

/-! ## Case analyses of the booking routes -/

/-- `createBooking` either rejects (state unchanged) or, when the package
exists, is active and has enough seats, inserts the `pending` booking and
decrements that package's seats. -/
lemma createBooking_cases (st : BookState) (u pk : Nat) (n : Int) :
    (createBooking st u pk n).1 = st ∨
    ∃ pkg, findPackage st.packages pk = some pkg ∧ pkg.active = true ∧
      1 ≤ n ∧ n ≤ pkg.seats_available ∧
      (createBooking st u pk n).1 =
        { packages := st.packages.map fun p =>
            if p.pid = pk
            then { p with seats_available := p.seats_available - n } else p,
          bookings :=
            ({ bid := st.nextBookingId, package_id := pk, user_id := u,
               num_travelers := n, total_price := pkg.price * n,
               status := "pending" } : Booking) :: st.bookings,
          nextBookingId := st.nextBookingId + 1 } := by
  unfold createBooking createBookingRun
  split
  · exact Or.inl rfl
  next hn =>
    cases hpk : findPackage st.packages pk with
    | none => exact Or.inl rfl
    | some pkg =>
      simp only []
      split
      · exact Or.inl rfl
      next hact =>
        split
        · exact Or.inl rfl
        next hseats =>
          refine Or.inr ⟨pkg, rfl, ?_, by omega, by omega, rfl⟩
          cases hb : pkg.active with
          | true => rfl
          | false => exact absurd hb hact

/-- `cancelBooking` (`PATCH /bookings/:id/cancel`) either rejects (state
unchanged) or, for the owner's `pending` booking, marks it cancelled and
returns its seats to its package. -/
lemma cancelBooking_cases (st : BookState) (u i : Nat) :
    (cancelBooking st u i).1 = st ∨
    ∃ b0, findBooking st.bookings i = some b0 ∧ b0.user_id = u ∧
      b0.status = "pending" ∧
      (cancelBooking st u i).1 =
        { st with
            bookings := st.bookings.map fun x =>
              if x.bid = i then { x with status := "cancelled" } else x,
            packages := st.packages.map fun p =>
              if p.pid = b0.package_id
              then { p with seats_available := p.seats_available + b0.num_travelers }
              else p } := by
  unfold cancelBooking
  cases hb : findBooking st.bookings i with
  | none => exact Or.inl rfl
  | some b0 =>
    simp only []
    split
    · exact Or.inl rfl
    next hu =>
      split
      · exact Or.inl rfl
      next hs =>
        exact Or.inr ⟨b0, rfl, not_not.mp hu, not_not.mp hs, rfl⟩

/-- `cancelBookingUser` (`PATCH /user/bookings/:id/cancel`) either rejects
(state unchanged) or cancels the owner's booking, which at that point is
neither `cancelled` nor `completed`, returning its seats. -/
lemma cancelBookingUser_cases (st : BookState) (u i : Nat) :
    (cancelBookingUser st u i).1 = st ∨
    ∃ b0, st.bookings.find? (fun b => decide (b.bid = i ∧ b.user_id = u)) = some b0 ∧
      b0.status ≠ "cancelled" ∧ b0.status ≠ "completed" ∧
      (cancelBookingUser st u i).1 =
        { st with
            bookings := st.bookings.map fun x =>
              if x.bid = i then { x with status := "cancelled" } else x,
            packages := st.packages.map fun p =>
              if p.pid = b0.package_id
              then { p with seats_available := p.seats_available + b0.num_travelers }
              else p } := by
  unfold cancelBookingUser
  cases hb : st.bookings.find? (fun b => decide (b.bid = i ∧ b.user_id = u)) with
  | none => exact Or.inl rfl
  | some b0 =>
    simp only []
    split
    · exact Or.inl rfl
    next hc =>
      split
      · exact Or.inl rfl
      next hcomp => exact Or.inr ⟨b0, rfl, hc, hcomp, rfl⟩

/-- `updateBookingStatus` either rejects (state unchanged) or rewrites the
status of the targeted booking, touching no package row. -/
lemma updateBookingStatus_cases (st : BookState) (i : Nat) (s : String) :
    (updateBookingStatus st i s).1 = st ∨
    (s ∈ bookingStatuses ∧
      (updateBookingStatus st i s).1 =
        { st with bookings := st.bookings.map fun x =>
            if x.bid = i then { x with status := s } else x }) := by
  unfold updateBookingStatus
  split
  · exact Or.inl rfl
  next hs =>
    split
    · exact Or.inl rfl
    · refine Or.inr ⟨?_, rfl⟩
      simp at hs
      simpa using hs

/-! ## Preservation of the seat invariants by create/cancel -/

/-- Both cancellation flows perform the same pair of writes; this is their
common effect on well-formedness. -/
lemma cancelCore_WF (st : BookState) (i : Nat) (b0 : Booking) (hwf : WFBook st) :
    WFBook { st with
      bookings := st.bookings.map fun x =>
        if x.bid = i then { x with status := "cancelled" } else x,
      packages := st.packages.map fun p =>
        if p.pid = b0.package_id
        then { p with seats_available := p.seats_available + b0.num_travelers }
        else p } := by
  obtain ⟨hnd, hpd, hlt, hnum, hstat⟩ := hwf
  refine ⟨?_, ?_, ?_, ?_, ?_⟩
  · have h := map_key_update st.bookings (fun x => x.bid = i)
      (fun x => { x with status := "cancelled" }) Booking.bid (fun x => rfl)
    show ((st.bookings.map fun x =>
      if x.bid = i then { x with status := "cancelled" } else x).map Booking.bid).Nodup
    rw [h]
    exact hnd
  · have h := map_key_update st.packages (fun p => p.pid = b0.package_id)
      (fun p => { p with seats_available := p.seats_available + b0.num_travelers })
      Package.pid (fun x => rfl)
    show ((st.packages.map fun p =>
      if p.pid = b0.package_id
      then { p with seats_available := p.seats_available + b0.num_travelers }
      else p).map Package.pid).Nodup
    rw [h]
    exact hpd
  · intro b hb
    rcases List.mem_map.mp hb with ⟨x, hx, rfl⟩
    by_cases hxi : x.bid = i
    · rw [if_pos hxi]; exact hlt x hx
    · rw [if_neg hxi]; exact hlt x hx
  · intro b hb
    rcases List.mem_map.mp hb with ⟨x, hx, rfl⟩
    by_cases hxi : x.bid = i
    · rw [if_pos hxi]; exact hnum x hx
    · rw [if_neg hxi]; exact hnum x hx
  · intro b hb
    rcases List.mem_map.mp hb with ⟨x, hx, rfl⟩
    by_cases hxi : x.bid = i
    · rw [if_pos hxi]; simp [bookingStatuses]
    · rw [if_neg hxi]; exact hstat x hx

/-- Common effect of the two cancellation flows on the seat-sum invariant:
cancelling an active booking adds its travellers back to exactly its
package. -/
lemma cancelCore_inv (st : BookState) (i : Nat) (b0 : Booking)
    (hmem : b0 ∈ st.bookings) (hbid : b0.bid = i)
    (hact : isActiveBooking b0 = true)
    (hnd : (st.bookings.map Booking.bid).Nodup)
    (hinv : seatInv st) :
    seatInv { st with
      bookings := st.bookings.map fun x =>
        if x.bid = i then { x with status := "cancelled" } else x,
      packages := st.packages.map fun p =>
        if p.pid = b0.package_id
        then { p with seats_available := p.seats_available + b0.num_travelers }
        else p } := by
  intro p' hp'
  rcases List.mem_map.mp hp' with ⟨p, hp, rfl⟩
  have hsum := activeSum_update st.bookings i p.pid
    (fun x => { x with status := "cancelled" }) b0 hnd hmem hbid
  have hc0 : contrib p.pid { b0 with status := "cancelled" } = 0 := by
    unfold contrib isActiveBooking
    simp
  have hbase := hinv p hp
  by_cases hpp : p.pid = b0.package_id
  · rw [if_pos hpp]
    have hcb : contrib p.pid b0 = b0.num_travelers := by
      unfold contrib
      rw [if_pos ⟨hpp.symm, hact⟩]
    show p.seats_available + b0.num_travelers = p.seats_total - _
    rw [hsum, hc0, hcb]
    omega
  · rw [if_neg hpp]
    have hcb : contrib p.pid b0 = 0 := by
      unfold contrib
      rw [if_neg]
      intro hk
      exact hpp hk.1.symm
    show p.seats_available = p.seats_total - _
    rw [hsum, hc0, hcb]
    omega

/-- Common effect of the two cancellation flows on the lower seat bound. -/
lemma cancelCore_lower (st : BookState) (i : Nat) (b0 : Booking)
    (hmem : b0 ∈ st.bookings) (hnum : 1 ≤ b0.num_travelers)
    (hlow : ∀ p ∈ st.packages, 0 ≤ p.seats_available) :
    ∀ p ∈ ({ st with
      bookings := st.bookings.map fun x =>
        if x.bid = i then { x with status := "cancelled" } else x,
      packages := st.packages.map fun p =>
        if p.pid = b0.package_id
        then { p with seats_available := p.seats_available + b0.num_travelers }
        else p } : BookState).packages, 0 ≤ p.seats_available := by
  intro p' hp'
  rcases List.mem_map.mp hp' with ⟨p, hp, rfl⟩
  have := hlow p hp
  by_cases hpp : p.pid = b0.package_id
  · rw [if_pos hpp]
    show (0 : Int) ≤ p.seats_available + b0.num_travelers
    omega
  · rw [if_neg hpp]
    exact this

/-- From the cancel route's lookup: the found booking, its key, and its
`pending` status (hence active). -/
lemma cancelBooking_found (st : BookState) (u i : Nat) (b0 : Booking)
    (hb : findBooking st.bookings i = some b0) :
    b0 ∈ st.bookings ∧ b0.bid = i := by
  unfold findBooking at hb
  have h1 := List.find?_some hb
  simp only [decide_eq_true_eq] at h1
  exact ⟨List.mem_of_find?_eq_some hb, h1⟩

/-- From the user-cancel route's lookup. -/
lemma cancelBookingUser_found (st : BookState) (u i : Nat) (b0 : Booking)
    (hb : st.bookings.find? (fun b => decide (b.bid = i ∧ b.user_id = u)) = some b0) :
    b0 ∈ st.bookings ∧ b0.bid = i ∧ b0.user_id = u := by
  have h1 := List.find?_some hb
  simp only [decide_eq_true_eq] at h1
  exact ⟨List.mem_of_find?_eq_some hb, h1.1, h1.2⟩

/-- A booking in a schema-conforming store that is neither cancelled nor
completed is active (`pending` or `confirmed`). -/
lemma active_of_not_cancelled_completed (b : Booking)
    (hs : b.status ∈ bookingStatuses)
    (h1 : b.status ≠ "cancelled") (h2 : b.status ≠ "completed") :
    isActiveBooking b = true := by
  unfold isActiveBooking
  simp only [bookingStatuses, List.mem_cons, List.not_mem_nil, or_false] at hs
  rcases hs with h | h | h | h
  · rw [h]; simp
  · rw [h]; simp
  · exact absurd h h1
  · exact absurd h h2

/-- One create/cancel step preserves well-formedness and the seat-sum
invariant. -/
lemma invWF_step (st : BookState) (op : BookOp) (hop : createCancelOp op)
    (hwf : WFBook st) (hinv : seatInv st) :
    WFBook (applyBookOp st op) ∧ seatInv (applyBookOp st op) := by
  cases op with
  | setStatus b s => exact absurd hop (by simp [createCancelOp])
  | create u pk n =>
    show WFBook (createBooking st u pk n).1 ∧ seatInv (createBooking st u pk n).1
    rcases createBooking_cases st u pk n with he | ⟨pkg, hpk, hact, hn1, hn2, he⟩
    · rw [he]; exact ⟨hwf, hinv⟩
    · rw [he]
      obtain ⟨hnd, hpd, hlt, hnum, hstat⟩ := hwf
      constructor
      · refine ⟨?_, ?_, ?_, ?_, ?_⟩
        · simp only [List.map_cons, List.nodup_cons]
          refine ⟨fun hmem => ?_, hnd⟩
          rcases List.mem_map.mp hmem with ⟨b, hbmem, hbid⟩
          exact absurd (hlt b hbmem) (by rw [hbid]; exact lt_irrefl _)
        · have h := map_key_update st.packages (fun p => p.pid = pk)
            (fun p => { p with seats_available := p.seats_available - n })
            Package.pid (fun x => rfl)
          show ((st.packages.map fun p =>
            if p.pid = pk
            then { p with seats_available := p.seats_available - n }
            else p).map Package.pid).Nodup
          rw [h]
          exact hpd
        · intro b hb
          rcases List.mem_cons.mp hb with rfl | hbt
          · exact Nat.lt_succ_self _
          · exact Nat.lt_succ_of_lt (hlt b hbt)
        · intro b hb
          rcases List.mem_cons.mp hb with rfl | hbt
          · exact hn1
          · exact hnum b hbt
        · intro b hb
          rcases List.mem_cons.mp hb with rfl | hbt
          · simp [bookingStatuses]
          · exact hstat b hbt
      · intro p' hp'
        rcases List.mem_map.mp hp' with ⟨p, hp, rfl⟩
        have hbase := hinv p hp
        by_cases hpp : p.pid = pk
        · rw [if_pos hpp]
          dsimp only
          rw [activeSum_cons]
          have hcn : contrib p.pid
              ({ bid := st.nextBookingId, package_id := pk, user_id := u,
                 num_travelers := n, total_price := pkg.price * n,
                 status := "pending" } : Booking) = n := by
            unfold contrib isActiveBooking
            rw [if_pos ⟨hpp.symm, by simp⟩]
          rw [hcn]
          omega
        · rw [if_neg hpp]
          rw [activeSum_cons]
          have hcn : contrib p.pid
              ({ bid := st.nextBookingId, package_id := pk, user_id := u,
                 num_travelers := n, total_price := pkg.price * n,
                 status := "pending" } : Booking) = 0 := by
            unfold contrib
            rw [if_neg]
            intro hk
            exact hpp hk.1.symm
          rw [hcn]
          omega
  | cancel u i =>
    show WFBook (cancelBooking st u i).1 ∧ seatInv (cancelBooking st u i).1
    rcases cancelBooking_cases st u i with he | ⟨b0, hb, hu, hs, he⟩
    · rw [he]; exact ⟨hwf, hinv⟩
    · rw [he]
      obtain ⟨hmem, hbid⟩ := cancelBooking_found st u i b0 hb
      refine ⟨cancelCore_WF st i b0 hwf, cancelCore_inv st i b0 hmem hbid ?_ hwf.1 hinv⟩
      unfold isActiveBooking
      rw [hs]
      simp
  | cancelU u i =>
    show WFBook (cancelBookingUser st u i).1 ∧ seatInv (cancelBookingUser st u i).1
    rcases cancelBookingUser_cases st u i with he | ⟨b0, hb, hc, hcomp, he⟩
    · rw [he]; exact ⟨hwf, hinv⟩
    · rw [he]
      obtain ⟨hmem, hbid, hu⟩ := cancelBookingUser_found st u i b0 hb
      refine ⟨cancelCore_WF st i b0 hwf,
        cancelCore_inv st i b0 hmem hbid ?_ hwf.1 hinv⟩
      exact active_of_not_cancelled_completed b0 (hwf.2.2.2.2 b0 hmem) hc hcomp

/-- One create/cancel step preserves the lower seat bound as well. -/
lemma lower_step (st : BookState) (op : BookOp) (hop : createCancelOp op)
    (hwf : WFBook st) (hlow : ∀ p ∈ st.packages, 0 ≤ p.seats_available) :
    ∀ p ∈ (applyBookOp st op).packages, 0 ≤ p.seats_available := by
  cases op with
  | setStatus b s => exact absurd hop (by simp [createCancelOp])
  | create u pk n =>
    show ∀ p ∈ (createBooking st u pk n).1.packages, 0 ≤ p.seats_available
    rcases createBooking_cases st u pk n with he | ⟨pkg, hpk, hact, hn1, hn2, he⟩
    · rw [he]; exact hlow
    · rw [he]
      intro p' hp'
      rcases List.mem_map.mp hp' with ⟨p, hp, rfl⟩
      by_cases hpp : p.pid = pk
      · rw [if_pos hpp]
        show (0 : Int) ≤ p.seats_available - n
        have hpfind : pkg ∈ st.packages ∧ pkg.pid = pk := by
          unfold findPackage at hpk
          have h1 := List.find?_some hpk
          simp only [decide_eq_true_eq] at h1
          exact ⟨List.mem_of_find?_eq_some hpk, h1⟩
        have : p = pkg := eq_of_key_nodup hwf.2.1 hp hpfind.1 (by rw [hpp, hpfind.2])
        subst this
        omega
      · rw [if_neg hpp]
        exact hlow p hp
  | cancel u i =>
    show ∀ p ∈ (cancelBooking st u i).1.packages, 0 ≤ p.seats_available
    rcases cancelBooking_cases st u i with he | ⟨b0, hb, hu, hs, he⟩
    · rw [he]; exact hlow
    · rw [he]
      obtain ⟨hmem, hbid⟩ := cancelBooking_found st u i b0 hb
      exact cancelCore_lower st i b0 hmem (hwf.2.2.2.1 b0 hmem) hlow
  | cancelU u i =>
    show ∀ p ∈ (cancelBookingUser st u i).1.packages, 0 ≤ p.seats_available
    rcases cancelBookingUser_cases st u i with he | ⟨b0, hb, hc, hcomp, he⟩
    · rw [he]; exact hlow
    · rw [he]
      obtain ⟨hmem, hbid, hu⟩ := cancelBookingUser_found st u i b0 hb
      exact cancelCore_lower st i b0 hmem (hwf.2.2.2.1 b0 hmem) hlow

/-- Unfolding one step of a booking-operation sequence. -/
lemma applyBookOps_cons (st : BookState) (op : BookOp) (ops : List BookOp) :
    applyBookOps st (op :: ops) = applyBookOps (applyBookOp st op) ops := rfl

/-- Sequence version: well-formedness and the seat-sum invariant hold after
any create/cancel sequence. -/
lemma invWF_apply (ops : List BookOp) : ∀ st : BookState,
    (∀ op ∈ ops, createCancelOp op) → WFBook st → seatInv st →
    WFBook (applyBookOps st ops) ∧ seatInv (applyBookOps st ops) := by
  induction ops with
  | nil => exact fun st _ hwf hinv => ⟨hwf, hinv⟩
  | cons op rest ih =>
    intro st hops hwf hinv
    rw [applyBookOps_cons]
    have hstep := invWF_step st op (hops op (List.mem_cons_self op rest)) hwf hinv
    exact ih (applyBookOp st op) (fun o ho => hops o (List.mem_cons_of_mem op ho))
      hstep.1 hstep.2

/-- Sequence version including the lower bound. -/
lemma lower_apply (ops : List BookOp) : ∀ st : BookState,
    (∀ op ∈ ops, createCancelOp op) → WFBook st → seatInv st →
    (∀ p ∈ st.packages, 0 ≤ p.seats_available) →
    ∀ p ∈ (applyBookOps st ops).packages, 0 ≤ p.seats_available := by
  induction ops with
  | nil => exact fun st _ _ _ hlow => hlow
  | cons op rest ih =>
    intro st hops hwf hinv hlow
    rw [applyBookOps_cons]
    have hmem := hops op (List.mem_cons_self op rest)
    have hstep := invWF_step st op hmem hwf hinv
    exact ih (applyBookOp st op) (fun o ho => hops o (List.mem_cons_of_mem op ho))
      hstep.1 hstep.2 (lower_step st op hmem hwf hlow)

/-! ## Case analyses of the request routes -/

/-- `createRequest` either rejects (state unchanged) or inserts a fresh
`pending` request with no guide. -/
lemma createRequest_cases (st : ReqState) (u : Nat) (d m : String) :
    (createRequest st u d m).1 = st ∨
    (createRequest st u d m).1 =
      { st with
          requests :=
            ({ rid := st.nextRequestId, user_id := u, status := "pending",
               tour_guide_id := none } : Request) :: st.requests,
          nextRequestId := st.nextRequestId + 1 } := by
  unfold createRequest
  split
  · exact Or.inl rfl
  · split
    · exact Or.inl rfl
    · split
      · exact Or.inl rfl
      · exact Or.inr rfl

/-- `assignRequest` either rejects (state unchanged) or rewrites exactly the
rows matching `id = requestId AND status = 'pending'` to
(`assigned`, guide). -/
lemma assignRequest_cases (st : ReqState) (rid g : Nat) :
    (assignRequest st rid g).1 = st ∨
    (assignRequest st rid g).1 =
      { st with
          requests := st.requests.map fun r =>
            if r.rid = rid ∧ r.status = "pending"
            then { r with status := "assigned", tour_guide_id := some g }
            else r } := by
  unfold assignRequest
  cases hg : findGuide st.users g with
  | none => exact Or.inl rfl
  | some gu =>
    simp only []
    split
    · exact Or.inl rfl
    · split
      · exact Or.inl rfl
      · split
        · cases hf : st.requests.find? (fun r => decide (r.rid = rid)) with
          | none => exact Or.inl rfl
          | some r => exact Or.inl rfl
        · exact Or.inr rfl

/-- `reassignRequest` either rejects (state unchanged) or, with the found
request `assigned`/`in_progress`, rewrites the rows matching the id to the
new guide (status untouched). -/
lemma reassignRequest_cases (st : ReqState) (rid g : Nat) :
    (reassignRequest st rid g).1 = st ∨
    ∃ r0, st.requests.find? (fun r => decide (r.rid = rid)) = some r0 ∧
      (r0.status = "assigned" ∨ r0.status = "in_progress") ∧
      (reassignRequest st rid g).1 =
        { st with
            requests := st.requests.map fun x =>
              if x.rid = rid then { x with tour_guide_id := some g } else x } := by
  unfold reassignRequest
  cases hg : findGuide st.users g with
  | none => exact Or.inl rfl
  | some gu =>
    simp only []
    split
    · exact Or.inl rfl
    · cases hf : st.requests.find? (fun r => decide (r.rid = rid)) with
      | none => exact Or.inl rfl
      | some r0 =>
        simp only []
        split
        next hs => exact Or.inr ⟨r0, rfl, hs, rfl⟩
        · exact Or.inl rfl

/-- `advanceStatus` either rejects (state unchanged) or, with a validated
lower-cased target in the allowed-next set of the found request, rewrites
the rows matching `id AND tour_guide_id` to the target status. -/
lemma advanceStatus_cases (st : ReqState) (g rid : Nat) (raw note : String) :
    (advanceStatus st g rid raw note).1 = st ∨
    ∃ r0, st.requests.find? (fun r =>
        decide (r.rid = rid ∧ r.tour_guide_id = some g)) = some r0 ∧
      (ALLOWED_STATUSES.contains (lowerStr raw)) = true ∧
      ((VALID_TRANSITIONS r0.status).contains (lowerStr raw)) = true ∧
      (advanceStatus st g rid raw note).1 =
        { st with
            requests := st.requests.map fun x =>
              if x.rid = rid ∧ x.tour_guide_id = some g
              then { x with status := lowerStr raw }
              else x } := by
  unfold advanceStatus
  split
  · exact Or.inl rfl
  · split
    next hallow => exact Or.inl rfl
    next hallow =>
      split
      · exact Or.inl rfl
      · cases hf : st.requests.find? (fun r =>
            decide (r.rid = rid ∧ r.tour_guide_id = some g)) with
        | none => exact Or.inl rfl
        | some r0 =>
          simp only []
          split
          next ht => exact Or.inl rfl
          next ht =>
            refine Or.inr ⟨r0, rfl, ?_, ?_, rfl⟩
            · cases hc : ALLOWED_STATUSES.contains (lowerStr raw) with
              | true => rfl
              | false => exact absurd hc (by simpa using hallow)
            · cases hc : (VALID_TRANSITIONS r0.status).contains (lowerStr raw) with
              | true => rfl
              | false => exact absurd hc (by simpa using ht)

/-- `cancelRequest` either rejects (state unchanged) or, with the found
request `pending`/`assigned`, rewrites the rows matching the id to
`cancelled` — the guide column is not written. -/
lemma cancelRequest_cases (st : ReqState) (u rid : Nat) :
    (cancelRequest st u rid).1 = st ∨
    ∃ r0, st.requests.find? (fun r =>
        decide (r.rid = rid ∧ r.user_id = u)) = some r0 ∧
      (r0.status = "pending" ∨ r0.status = "assigned") ∧
      (cancelRequest st u rid).1 =
        { st with
            requests := st.requests.map fun x =>
              if x.rid = rid then { x with status := "cancelled" } else x } := by
  unfold cancelRequest
  cases hf : st.requests.find? (fun r => decide (r.rid = rid ∧ r.user_id = u)) with
  | none => exact Or.inl rfl
  | some r0 =>
    simp only []
    split
    next hs => exact Or.inr ⟨r0, rfl, hs, rfl⟩
    · exact Or.inl rfl

/-! ## Preservation of the guide-link invariant -/

/-- One request operation preserves well-formedness of the request store. -/
lemma WFReq_step (st : ReqState) (op : ReqOp) (hwf : WFReq st) :
    WFReq (applyReqOp st op) := by
  obtain ⟨hnd, hlt⟩ := hwf
  have upd : ∀ (c : Request → Prop) [DecidablePred c] (g : Request → Request),
      (∀ x, (g x).rid = x.rid) →
      WFReq { st with requests := st.requests.map fun x => if c x then g x else x } := by
    intro c _ g hg
    constructor
    · have h := map_key_update st.requests c g Request.rid hg
      show ((st.requests.map fun x => if c x then g x else x).map Request.rid).Nodup
      rw [h]
      exact hnd
    · intro r hr
      rcases List.mem_map.mp hr with ⟨x, hx, rfl⟩
      by_cases hc : c x
      · rw [if_pos hc, hg]; exact hlt x hx
      · rw [if_neg hc]; exact hlt x hx
  cases op with
  | create u d m =>
    show WFReq (createRequest st u d m).1
    rcases createRequest_cases st u d m with he | he
    · rw [he]; exact ⟨hnd, hlt⟩
    · rw [he]
      constructor
      · simp only [List.map_cons, List.nodup_cons]
        refine ⟨fun hmem => ?_, hnd⟩
        rcases List.mem_map.mp hmem with ⟨r, hrmem, hrid⟩
        exact absurd (hlt r hrmem) (by rw [hrid]; exact lt_irrefl _)
      · intro r hr
        rcases List.mem_cons.mp hr with rfl | hrt
        · exact Nat.lt_succ_self _
        · exact Nat.lt_succ_of_lt (hlt r hrt)
  | assign rid g =>
    show WFReq (assignRequest st rid g).1
    rcases assignRequest_cases st rid g with he | he
    · rw [he]; exact ⟨hnd, hlt⟩
    · rw [he]; exact upd _ _ (fun x => rfl)
  | reassign rid g =>
    show WFReq (reassignRequest st rid g).1
    rcases reassignRequest_cases st rid g with he | ⟨r0, hf, hs, he⟩
    · rw [he]; exact ⟨hnd, hlt⟩
    · rw [he]; exact upd _ _ (fun x => rfl)
  | advance g rid raw note =>
    show WFReq (advanceStatus st g rid raw note).1
    rcases advanceStatus_cases st g rid raw note with he | ⟨r0, hf, ha, ht, he⟩
    · rw [he]; exact ⟨hnd, hlt⟩
    · rw [he]; exact upd _ _ (fun x => rfl)
  | cancel u rid =>
    show WFReq (cancelRequest st u rid).1
    rcases cancelRequest_cases st u rid with he | ⟨r0, hf, hs, he⟩
    · rw [he]; exact ⟨hnd, hlt⟩
    · rw [he]; exact upd _ _ (fun x => rfl)

/-- One request operation preserves the guide-link invariant on every row. -/
lemma guideLink_step (st : ReqState) (op : ReqOp) (hwf : WFReq st)
    (hinv : ∀ r ∈ st.requests, guideLinkInv r) :
    ∀ r ∈ (applyReqOp st op).requests, guideLinkInv r := by
  cases op with
  | create u d m =>
    show ∀ r ∈ (createRequest st u d m).1.requests, guideLinkInv r
    rcases createRequest_cases st u d m with he | he
    · rw [he]; exact hinv
    · rw [he]
      intro r hr
      rcases List.mem_cons.mp hr with rfl | hrt
      · constructor
        · intro h
          have h2 : ("pending" : String) = "assigned" ∨ ("pending" : String) = "in_progress" ∨
              ("pending" : String) = "completed" := h
          rcases h2 with h2 | h2 | h2 <;> exact absurd h2 (by decide)
        · intro h
          exact absurd rfl h
      · exact hinv r hrt
  | assign rid g =>
    show ∀ r ∈ (assignRequest st rid g).1.requests, guideLinkInv r
    rcases assignRequest_cases st rid g with he | he
    · rw [he]; exact hinv
    · rw [he]
      intro r hr
      rcases List.mem_map.mp hr with ⟨x, hx, rfl⟩
      by_cases hc : x.rid = rid ∧ x.status = "pending"
      · rw [if_pos hc]
        exact ⟨fun _ => by simp, fun _ => Or.inl rfl⟩
      · rw [if_neg hc]; exact hinv x hx
  | reassign rid g =>
    show ∀ r ∈ (reassignRequest st rid g).1.requests, guideLinkInv r
    rcases reassignRequest_cases st rid g with he | ⟨r0, hf, hs, he⟩
    · rw [he]; exact hinv
    · rw [he]
      intro r hr
      rcases List.mem_map.mp hr with ⟨x, hx, rfl⟩
      by_cases hc : x.rid = rid
      · rw [if_pos hc]
        have hx0 : x = r0 := by
          have h1 := List.find?_some hf
          simp only [decide_eq_true_eq] at h1
          exact eq_of_key_nodup hwf.1 hx (List.mem_of_find?_eq_some hf) (by rw [hc, h1])
        subst hx0
        constructor
        · intro _; simp
        · intro _
          rcases hs with h | h
          · exact Or.inl h
          · exact Or.inr (Or.inl h)
      · rw [if_neg hc]; exact hinv x hx
  | advance g rid raw note =>
    show ∀ r ∈ (advanceStatus st g rid raw note).1.requests, guideLinkInv r
    rcases advanceStatus_cases st g rid raw note with he | ⟨r0, hf, ha, ht, he⟩
    · rw [he]; exact hinv
    · rw [he]
      intro r hr
      rcases List.mem_map.mp hr with ⟨x, hx, rfl⟩
      by_cases hc : x.rid = rid ∧ x.tour_guide_id = some g
      · rw [if_pos hc]
        have hmem : lowerStr raw ∈ ALLOWED_STATUSES := by simpa using ha
        simp only [ALLOWED_STATUSES, List.mem_cons, List.not_mem_nil, or_false] at hmem
        constructor
        · intro _
          show x.tour_guide_id ≠ none
          rw [hc.2]
          simp
        · intro _
          rcases hmem with h | h | h
          · exact Or.inl h
          · exact Or.inr (Or.inl h)
          · exact Or.inr (Or.inr (Or.inl h))
      · rw [if_neg hc]; exact hinv x hx
  | cancel u rid =>
    show ∀ r ∈ (cancelRequest st u rid).1.requests, guideLinkInv r
    rcases cancelRequest_cases st u rid with he | ⟨r0, hf, hs, he⟩
    · rw [he]; exact hinv
    · rw [he]
      intro r hr
      rcases List.mem_map.mp hr with ⟨x, hx, rfl⟩
      by_cases hc : x.rid = rid
      · rw [if_pos hc]
        constructor
        · intro h
          have h2 : ("cancelled" : String) = "assigned" ∨ ("cancelled" : String) = "in_progress" ∨
              ("cancelled" : String) = "completed" := h
          rcases h2 with h2 | h2 | h2 <;> exact absurd h2 (by decide)
        · intro _
          exact Or.inr (Or.inr (Or.inr rfl))
      · rw [if_neg hc]; exact hinv x hx

/-- Unfolding one step of a request-operation sequence. -/
lemma applyReqOps_cons (st : ReqState) (op : ReqOp) (ops : List ReqOp) :
    applyReqOps st (op :: ops) = applyReqOps (applyReqOp st op) ops := rfl

/-- Sequence version: well-formedness and the guide-link invariant hold
after any sequence of request operations. -/
lemma guideLink_apply (ops : List ReqOp) : ∀ st : ReqState,
    WFReq st → (∀ r ∈ st.requests, guideLinkInv r) →
    WFReq (applyReqOps st ops) ∧
      ∀ r ∈ (applyReqOps st ops).requests, guideLinkInv r := by
  induction ops with
  | nil => exact fun st hwf hinv => ⟨hwf, hinv⟩
  | cons op rest ih =>
    intro st hwf hinv
    rw [applyReqOps_cons]
    exact ih (applyReqOp st op) (WFReq_step st op hwf)
      (guideLink_step st op hwf hinv)

/-! ## Claim theorems -/

/-- C1: the booking insert and the seat decrement are not atomic.  At the
failing input — a valid `POST /bookings` (user 1, package 1 with 5 seats,
2 travelers) whose seat-decrement `UPDATE` fails after the booking `INSERT`
auto-committed — the committed state holds a `pending` booking while
`seats_available` is unchanged at 5, violating the both-or-neither
consistency invariant the spec states for `createBooking`. -/
theorem createBooking_partial_commit :
    ((createBookingRun bookSt0 1 1 2 true).1.bookings.map Booking.status) = ["pending"] ∧
    ((createBookingRun bookSt0 1 1 2 true).1.packages.map Package.seats_available) = [5] ∧
    (createBookingRun bookSt0 1 1 2 true).2 = .err 500 "Failed to create booking" ∧
    ¬ seatInv (createBookingRun bookSt0 1 1 2 true).1 := by decide

/-- C2 counterexample: starting from a well-formed store satisfying the seat
invariant, the sequence "create a 3-traveler booking, then admin
`updateBookingStatus` to `cancelled`" leaves `seats_available = 2` while the
active-booking sum is 0, so `seats_available ≠ seats_total − Σ` — the
invariant is not maintained across `updateBookingStatus`. -/
theorem seatInv_violated_by_status_update :
    WFBook bookSt0 ∧ seatInv bookSt0 ∧
    ¬ seatInv (applyBookOps bookSt0
        [.create 1 1 3, .setStatus 1 "cancelled"]) := by decide

/-- C2 amended: for every package, `seats_available = seats_total − Σ
num_travelers` over its `pending`/`confirmed` bookings holds after any
sequence of `createBooking` and `cancelBooking` operations (either
cancellation flow) from a well-formed state satisfying the invariant;
`updateBookingStatus` is excluded because it rewrites booking statuses
without touching seat counts. -/
theorem seatInv_preserved_by_create_cancel (st : BookState) (ops : List BookOp)
    (hops : ∀ op ∈ ops, createCancelOp op)
    (hwf : WFBook st) (hinv : seatInv st) :
    seatInv (applyBookOps st ops) :=
  (invWF_apply ops st hops hwf hinv).2

/-- Witness for the C2 theorem at the §8 scenario: book 3 of 5 seats, then
cancel the booking. -/
theorem seatInv_preserved_by_create_cancel_witness :
    seatInv (applyBookOps bookSt0 [.create 1 1 3, .cancel 1 1]) :=
  seatInv_preserved_by_create_cancel bookSt0 [.create 1 1 3, .cancel 1 1]
    (by decide) (by decide) (by decide)

/-- C3 counterexample: `PUT /packages/:id` overwrites `seats_available`
with any supplied value — setting it to 6 on a 5-seat package succeeds and
leaves `seats_available > seats_total`, so the bounds are not enforced
after every operation of the component. -/
theorem seatBounds_violated_by_package_update :
    seatBounds bookSt0 ∧
    (updatePackageSeats bookSt0 1 (some 6) none).2 = .ok 200 ∧
    ¬ seatBounds (updatePackageSeats bookSt0 1 (some 6) none).1 := by decide

/-- C3 amended: `0 ≤ seats_available ≤ seats_total` holds after any
sequence of `createBooking`/`cancelBooking` operations from a well-formed
state satisfying the seat invariant and the lower bound; the bounds are not
enforced by the package-update route (which writes unchecked values) nor
across `updateBookingStatus`. -/
theorem seatBounds_preserved_by_create_cancel (st : BookState) (ops : List BookOp)
    (hops : ∀ op ∈ ops, createCancelOp op)
    (hwf : WFBook st) (hinv : seatInv st)
    (hlow : ∀ p ∈ st.packages, 0 ≤ p.seats_available) :
    seatBounds (applyBookOps st ops) := by
  obtain ⟨hwf', hinv'⟩ := invWF_apply ops st hops hwf hinv
  have hlow' := lower_apply ops st hops hwf hinv hlow
  intro p hp
  refine ⟨hlow' p hp, ?_⟩
  have hbase := hinv' p hp
  have hs := activeSum_nonneg (applyBookOps st ops).bookings p.pid hwf'.2.2.2.1
  omega

/-- Witness for the C3 theorem at the §8 scenario. -/
theorem seatBounds_preserved_by_create_cancel_witness :
    seatBounds (applyBookOps bookSt0 [.create 1 1 3, .cancel 1 1]) :=
  seatBounds_preserved_by_create_cancel bookSt0 [.create 1 1 3, .cancel 1 1]
    (by decide) (by decide) (by decide) (by decide)

/-- C4: cancelling an already-cancelled booking is rejected by both
cancellation flows with a 400 business error, and the state — in particular
the package's `seats_available` — is byte-for-byte unchanged: the seats are
never credited a second time. -/
theorem cancel_cancelled_booking_rejected (st : BookState) (u i : Nat)
    (b : Booking) (hfind : findBooking st.bookings i = some b)
    (howner : b.user_id = u) (hst : b.status = "cancelled") :
    cancelBooking st u i =
      (st, .err 400 ("Cannot cancel " ++ b.status ++ " booking")) ∧
    cancelBookingUser st u i = (st, .err 400 "Booking already cancelled") := by
  have hbid : b.bid = i := by
    unfold findBooking at hfind
    have h1 := List.find?_some hfind
    simpa using h1
  constructor
  · unfold cancelBooking
    rw [hfind]
    simp only []
    rw [if_neg (fun h => h howner)]
    rw [if_pos (by rw [hst]; decide)]
  · have hq : st.bookings.find?
        (fun x => decide (x.bid = i ∧ x.user_id = u)) = some b := by
      refine find?_stronger st.bookings (fun x => decide (x.bid = i)) _ b ?_ ?_ ?_
      · unfold findBooking at hfind
        exact hfind
      · simp [hbid, howner]
      · intro x hx
        simp only [decide_eq_true_eq] at hx ⊢
        exact hx.1
    unfold cancelBookingUser
    rw [hq]
    simp only []
    rw [if_pos hst]

/-- Witness for C4: both flows reject the cancelled booking of
`bookStCancelled` and leave the store unchanged. -/
theorem cancel_cancelled_booking_rejected_witness :
    cancelBooking bookStCancelled 3 1 =
      (bookStCancelled, .err 400 ("Cannot cancel " ++ "cancelled" ++ " booking")) ∧
    cancelBookingUser bookStCancelled 3 1 =
      (bookStCancelled, .err 400 "Booking already cancelled") :=
  cancel_cancelled_booking_rejected bookStCancelled 3 1
    { bid := 1, package_id := 1, user_id := 3, num_travelers := 2,
      total_price := 200, status := "cancelled" }
    (by decide) (by decide) (by decide)

/-- C5 counterexample: from a well-formed store where the claimed
equivalence holds, the reachable sequence "create request, admin assigns
guide 7, user cancels" produces a request with `status = cancelled` and
`tour_guide_id = 7` — non-null guide without an
assigned/in_progress/completed status, refuting the `iff`. -/
theorem guideIff_violated_by_cancel :
    WFReq reqSt0 ∧ (∀ r ∈ reqSt0.requests, guideIffStatus r) ∧
    ¬ (∀ r ∈ (applyReqOps reqSt0
          [.create 2 "Paris" "", .assign 1 7, .cancel 2 1]).requests,
        guideIffStatus r) := by decide

/-- C5 amended: after any operation sequence, every request satisfies the
one-sided link the code maintains: a request in
`assigned`/`in_progress`/`completed` always holds a guide, and a request
holding a guide is in one of those statuses or `cancelled` (user/guide
cancellation sets `status = cancelled` without clearing `tour_guide_id`). -/
theorem guideLink_invariant_preserved (st : ReqState) (ops : List ReqOp)
    (hwf : WFReq st) (hinv : ∀ r ∈ st.requests, guideLinkInv r) :
    ∀ r ∈ (applyReqOps st ops).requests, guideLinkInv r :=
  (guideLink_apply ops st hwf hinv).2

/-- Witness for the C5 theorem: the request reached by
create–assign–cancel satisfies the maintained guide-link invariant. -/
theorem guideLink_invariant_preserved_witness :
    guideLinkInv
      { rid := 1, user_id := 2, status := "cancelled", tour_guide_id := some 7 } :=
  guideLink_invariant_preserved reqSt0
    [.create 2 "Paris" "", .assign 1 7, .cancel 2 1] (by decide) (by decide)
    { rid := 1, user_id := 2, status := "cancelled", tour_guide_id := some 7 }
    (by decide)

/-- C6 counterexample: with a request in terminal status `cancelled` (held
by guide 7), the requested target `pending` is not in the allowed-next set,
yet the route rejects it with the closed-list message — which is not the
claimed transition error, does not name the current status `cancelled`, and
does not render the empty allowed-next set as `none`. -/
theorem advanceStatus_offlist_target_error :
    advanceStatus reqStCancelled 7 1 "pending" "" =
      (reqStCancelled,
        .err 400 "Invalid status. Allowed: assigned, in_progress, completed") ∧
    "Invalid status. Allowed: assigned, in_progress, completed" ≠
      transitionErrMsg "cancelled" "pending" ∧
    ¬ ("cancelled".data <:+:
        ("Invalid status. Allowed: assigned, in_progress, completed").data) ∧
    ¬ ("none".data <:+:
        ("Invalid status. Allowed: assigned, in_progress, completed").data) := by
  decide

/-- C6 amended: `advanceStatus` succeeds only when the lower-cased target is
in the allowed-next set of the found request's current status; a target from
the guide status list that is not in the allowed-next set fails with the
transition error naming the current status and the allowed-next set
(rendering an empty set as `none`) and leaves the state unchanged; a target
outside the guide status list is rejected earlier by the closed-list check,
whose message names only the allowed status list, again with the state
unchanged. -/
theorem advanceStatus_fsm_enforced :
    (∀ st g rid raw note st', advanceStatus st g rid raw note = (st', Resp.ok 200) →
      ∃ r0, st.requests.find? (fun r =>
          decide (r.rid = rid ∧ r.tour_guide_id = some g)) = some r0 ∧
        lowerStr raw ∈ VALID_TRANSITIONS r0.status) ∧
    (∀ st g rid raw note r0, raw ≠ "" →
      (ALLOWED_STATUSES.contains (lowerStr raw)) = true →
      ¬(note ≠ "" ∧ 500 < (trimStr note).length) →
      st.requests.find? (fun r =>
          decide (r.rid = rid ∧ r.tour_guide_id = some g)) = some r0 →
      ((VALID_TRANSITIONS r0.status).contains (lowerStr raw)) = false →
      advanceStatus st g rid raw note =
        (st, .err 400 (transitionErrMsg r0.status (lowerStr raw)))) ∧
    (∀ st g rid raw note, raw ≠ "" →
      (ALLOWED_STATUSES.contains (lowerStr raw)) = false →
      advanceStatus st g rid raw note =
        (st, .err 400 ("Invalid status. Allowed: " ++ joinComma ALLOWED_STATUSES))) := by
  refine ⟨?_, ?_, ?_⟩
  · intro st g rid raw note st' h
    unfold advanceStatus at h
    split at h
    · simp at h
    · split at h
      · simp at h
      · split at h
        · simp at h
        · split at h
          · simp at h
          next r0 hf =>
            split at h
            · simp at h
            next ht =>
              refine ⟨r0, hf, ?_⟩
              have hc : (VALID_TRANSITIONS r0.status).contains (lowerStr raw) = true := by
                cases hcc : (VALID_TRANSITIONS r0.status).contains (lowerStr raw) with
                | true => rfl
                | false => exact absurd hcc (by simpa using ht)
              simpa using hc
  · intro st g rid raw note r0 hraw hallow hnote hfind hbad
    unfold advanceStatus
    rw [if_neg hraw,
      if_neg (fun hc => by rw [hallow] at hc; exact Bool.noConfusion hc),
      if_neg hnote, hfind]
    dsimp only
    rw [if_pos hbad]
  · intro st g rid raw note hraw hlist
    unfold advanceStatus
    rw [if_neg hraw, if_pos hlist]

/-- Witness for the C6 theorem: guide 7's cancelled request (empty
allowed-next set) with the in-list target `completed` is rejected with the
transition error, rendering the allowed-next set as `none`. -/
theorem advanceStatus_fsm_enforced_witness :
    advanceStatus reqStCancelled 7 1 "completed" "" =
      (reqStCancelled, .err 400 (transitionErrMsg "cancelled" "completed")) :=
  advanceStatus_fsm_enforced.2.1 reqStCancelled 7 1 "completed" ""
    { rid := 1, user_id := 2, status := "cancelled", tour_guide_id := some 7 }
    (by decide) (by decide) (by decide) (by decide) (by decide)

/-- C7: `assignRequest` succeeds only when the guide row exists with role
`tour_guide` and `active = true`, the guide's count of
`assigned`/`in_progress` requests is below 10, and some row matches
`id = requestId AND status = 'pending'`; at the workload cap it fails with
the workload error leaving the state unchanged; and when no pending row
matches, the update changes nothing and the handler reports the re-read
request's actual status. -/
theorem assignRequest_characterization :
    (∀ st rid g st', assignRequest st rid g = (st', Resp.ok 200) →
      (∃ u, findGuide st.users g = some u ∧ u.active = true) ∧
      activeCount st.requests g < 10 ∧
      ∃ r ∈ st.requests, r.rid = rid ∧ r.status = "pending") ∧
    (∀ st rid g u, findGuide st.users g = some u → u.active = true →
      10 ≤ activeCount st.requests g →
      assignRequest st rid g = (st, .err 400
        "Tour Guide has too many active requests. Please choose another tour guide.")) ∧
    (∀ st rid g u r0, findGuide st.users g = some u → u.active = true →
      activeCount st.requests g < 10 →
      (∀ r ∈ st.requests, ¬(r.rid = rid ∧ r.status = "pending")) →
      st.requests.find? (fun r => decide (r.rid = rid)) = some r0 →
      assignRequest st rid g = (st, .err 400
        ("Cannot assign request with status \x27" ++ r0.status ++ "\x27"))) := by
  refine ⟨?_, ?_, ?_⟩
  · intro st rid g st' h
    unfold assignRequest at h
    split at h
    · simp at h
    next gu hg =>
      split at h
      · simp at h
      next hact =>
        split at h
        · simp at h
        next hw =>
          split at h
          · split at h
            · simp at h
            · simp at h
          next hne =>
            refine ⟨⟨gu, hg, ?_⟩, by omega, ?_⟩
            · cases hb : gu.active with
              | true => rfl
              | false => exact absurd hb hact
            · have hne' : (st.requests.filter fun r =>
                  decide (r.rid = rid ∧ r.status = "pending")) ≠ [] := by
                intro hnil
                exact hne (by rw [hnil]; rfl)
              obtain ⟨x, hx⟩ := List.exists_mem_of_ne_nil _ hne'
              have hx2 := List.mem_filter.mp hx
              refine ⟨x, hx2.1, ?_⟩
              simpa using hx2.2
  · intro st rid g u hg hact hw
    unfold assignRequest
    rw [hg]
    dsimp only
    rw [if_neg (by simp [hact]), if_pos hw]
  · intro st rid g u r0 hg hact hw hnone hfind
    unfold assignRequest
    rw [hg]
    dsimp only
    rw [if_neg (by simp [hact]), if_neg (by omega)]
    have hnil : (st.requests.filter fun r =>
        decide (r.rid = rid ∧ r.status = "pending")) = [] := by
      rw [List.filter_eq_nil]
      intro r hr
      simpa using hnone r hr
    rw [if_pos (by rw [hnil]; rfl), hfind]

/-- Witness for the C7 theorem: assigning the pending request 11 to guide 7,
who already holds ten active requests, is rejected with the workload error
and the store is unchanged. -/
theorem assignRequest_characterization_witness :
    assignRequest reqStTen 11 7 = (reqStTen, .err 400
      "Tour Guide has too many active requests. Please choose another tour guide.") :=
  assignRequest_characterization.2.1 reqStTen 11 7 guide7
    (by decide) (by decide) (by decide)

/-- C8: a successful `reassignRequest` requires an existing active guide row
and a found request in status `assigned` or `in_progress`; the new state
rewrites only `tour_guide_id` of the rows matching the id — the status
column of every request and the user table are untouched. -/
theorem reassignRequest_characterization :
    ∀ st rid g st', reassignRequest st rid g = (st', Resp.ok 200) →
      ∃ u r0, findGuide st.users g = some u ∧ u.active = true ∧
        st.requests.find? (fun r => decide (r.rid = rid)) = some r0 ∧
        (r0.status = "assigned" ∨ r0.status = "in_progress") ∧
        st' = { st with requests := st.requests.map fun x =>
            if x.rid = rid then { x with tour_guide_id := some g } else x } ∧
        st'.requests.map Request.status = st.requests.map Request.status ∧
        st'.users = st.users := by
  intro st rid g st' h
  unfold reassignRequest at h
  split at h
  · simp at h
  next u hg =>
    split at h
    · simp at h
    next hact =>
      split at h
      · simp at h
      next r0 hf =>
        split at h
        next hs =>
          simp only [Prod.mk.injEq] at h
          have hst' : st' = { st with requests := st.requests.map fun x =>
              if x.rid = rid then { x with tour_guide_id := some g } else x } :=
            h.1.symm
          refine ⟨u, r0, hg, ?_, hf, hs, hst', ?_, ?_⟩
          · cases hb : u.active with
            | true => rfl
            | false => exact absurd hb hact
          · rw [hst']
            exact map_key_update st.requests (fun x => x.rid = rid)
              (fun x => { x with tour_guide_id := some g }) Request.status
              (fun x => rfl)
          · rw [hst']
        · simp at h

/-- Witness for the C8 theorem at a concrete successful reassignment: the
statuses are untouched by the reassign. -/
theorem reassignRequest_characterization_witness :
    ((reassignRequest reqStAssigned 1 7).1.requests.map Request.status) =
      reqStAssigned.requests.map Request.status := by
  obtain ⟨u, r0, hg, hact, hf, hs, hst, hmap, hus⟩ :=
    reassignRequest_characterization reqStAssigned 1 7
      (reassignRequest reqStAssigned 1 7).1 (by decide)
  exact hmap

/-- C9 counterexample: the guide route lower-cases the incoming status, so
the differently-cased variant `IN_PROGRESS` is accepted and coerced — the
call succeeds and stores `in_progress` — rather than being rejected as the
claim requires. -/
theorem advanceStatus_accepts_uppercase :
    (advanceStatus reqStAssigned 7 1 "IN_PROGRESS" "").2 = Resp.ok 200 ∧
    ((advanceStatus reqStAssigned 7 1 "IN_PROGRESS" "").1.requests.map
      Request.status) = ["in_progress"] := by decide

/-- C9 amended: the admin booking-status route validates against the exact
closed lowercase literal list and rejects anything else without coercion,
while the guide status route lower-cases its input before validating, so
differently-cased variants of the guide statuses are accepted as their
lowercase forms. -/
theorem status_validation_exact_vs_lowercased :
    (∀ st i s, s ∉ bookingStatuses →
      updateBookingStatus st i s = (st, .err 400 "Invalid status")) ∧
    (∀ st g rid note, advanceStatus st g rid "IN_PROGRESS" note =
      advanceStatus st g rid "in_progress" note) := by
  constructor
  · intro st i s hs
    unfold updateBookingStatus
    rw [if_pos]
    cases hc : bookingStatuses.contains s with
    | true => exact absurd (by simpa using hc) hs
    | false => rfl
  · intro st g rid note
    unfold advanceStatus
    rw [if_neg (by decide : ¬("IN_PROGRESS" : String) = ""),
      if_neg (by decide : ¬("in_progress" : String) = ""),
      (by decide : lowerStr "IN_PROGRESS" = "in_progress"),
      (by decide : lowerStr "in_progress" = "in_progress")]

/-- Witness for the C9 theorem: the exactly-validated booking route rejects
the cased variant `CONFIRMED`. -/
theorem status_validation_exact_vs_lowercased_witness :
    updateBookingStatus bookSt0 1 "CONFIRMED" = (bookSt0, .err 400 "Invalid status") :=
  status_validation_exact_vs_lowercased.1 bookSt0 1 "CONFIRMED" (by decide)

/-- C10: `GET /tour-guide/requests` reports `total` as the size of the
guide's unfiltered request set even when a status filter restricts the
returned rows, every returned row matches a valid filter, and on a concrete
store the filtered row count is strictly below the reported total. -/
theorem listGuideRequests_total_unfiltered :
    (∀ st g page limit s,
      (listGuideRequests st g page limit (some s)).total =
        (st.requests.filter fun (r : Request) =>
          decide (r.tour_guide_id = some g)).length) ∧
    (∀ st g page limit s, (ALLOWED_STATUSES.contains s) = true →
      ∀ r ∈ (listGuideRequests st g page limit (some s)).rows, r.status = s) ∧
    ((listGuideRequests reqStTwo 7 1 10 (some "assigned")).rows.length <
      (listGuideRequests reqStTwo 7 1 10 (some "assigned")).total) := by
  refine ⟨fun st g page limit s => rfl, ?_, by decide⟩
  intro st g page limit s hs r hr
  unfold listGuideRequests at hr
  dsimp only at hr
  rw [if_pos hs] at hr
  have h1 := List.take_subset _ _ hr
  have h2 := List.drop_subset _ _ h1
  have h3 := List.mem_filter.mp h2
  simpa using h3.2

/-- Witness for the C10 theorem: with the `assigned` filter on `reqStTwo`,
the returned row is `assigned`. -/
theorem listGuideRequests_total_unfiltered_witness :
    ({ rid := 1, user_id := 2, status := "assigned",
       tour_guide_id := some 7 } : Request).status = "assigned" :=
  listGuideRequests_total_unfiltered.2.1 reqStTwo 7 1 10 "assigned" (by decide)
    { rid := 1, user_id := 2, status := "assigned", tour_guide_id := some 7 }
    (by decide)

end Tourism
